import Mathlib

/-!
# dfs-chrome popup: connection tracking and the save command

A shallow embedding of `src/extensions/dfs-chrome/popup.js`.

* JavaScript strings are modelled by `String` (well-formed Unicode text); the
  built-ins used by the popup (`split`, `trim`, `JSON.stringify`) are written
  out over the characters of the string.
* The mutable variables of the popup (`is_connected`, `global_ws`), the part of
  the page the handlers write to (`overlay_text.innerText`, the `hidden` class
  of `overlay`) and the effects they perform (`console.log`, DOM writes,
  `WebSocket.send`) are the fields of the record `Popup`; every handler is a
  function from `Popup` to `Popup`.
-/

namespace DfsChrome

/-! ## JavaScript strings -/

/-- WhiteSpace and LineTerminator code points of ECMAScript, the characters that
`String.prototype.trim` removes: TAB, LF, VT, FF, CR, SP, NBSP, the other
members of the category Zs, LS, PS and ZWNBSP. -/
def isWhiteSpace (c : Char) : Bool :=
  let n := c.toNat
  n = 0x09 || n = 0x0A || n = 0x0B || n = 0x0C || n = 0x0D || n = 0x20 || n = 0xA0 ||
  n = 0x1680 || (0x2000 ≤ n && n ≤ 0x200A) || n = 0x2028 || n = 0x2029 ||
  n = 0x202F || n = 0x205F || n = 0x3000 || n = 0xFEFF

/-- Cut a character sequence at every character satisfying `p`; the pieces
between two cuts are kept, the empty ones included, so the result is never
empty. -/
def splitChars (p : Char → Bool) : List Char → List (List Char)
  | [] => [[]]
  | c :: cs =>
    if p c then [] :: splitChars p cs
    else
      match splitChars p cs with
      | [] => [[c]]
      | t :: ts => (c :: t) :: ts

/-- Remove the longest run of characters satisfying `p` from both ends. -/
def stripChars (p : Char → Bool) (cs : List Char) : List Char :=
  ((cs.dropWhile p).reverse.dropWhile p).reverse

/-- The method `String.prototype.split` with a one-character separator and no
limit: `s.split(sep)`. -/
def split (s : String) (sep : Char) : List String :=
  (splitChars (fun c => c == sep) s.data).map String.mk

/-- The method `String.prototype.trim`. It has no parameter: whatever is passed at
the call (`_arg`) is ignored and white space is what gets removed. -/
def trim (s : String) (_arg : String) : String :=
  ⟨stripChars isWhiteSpace s.data⟩

/-- The expression bound to `tags` in the click handler:
`tag_src.split(' ').map(s => s.trim(",")).filter(x => x != "")`. -/
def tags (tag_src : String) : List String :=
  ((split tag_src ' ').map (fun s => trim s ",")).filter (fun x => x != "")

/-! ### The tag list as the specification words it -/

/-- Specification wording: split the raw tag string on whitespace. -/
def spec_splitWhitespace (s : String) : List String :=
  (splitChars isWhiteSpace s.data).map String.mk

/-- Specification wording: strip leading and trailing comma characters. -/
def spec_stripCommas (s : String) : String :=
  ⟨stripChars (fun c => c == ',') s.data⟩

/-- Specification wording: split on whitespace, strip the commas at both ends of
every token, drop the tokens that are then empty; order kept, duplicates kept. -/
def spec_tags (s : String) : List String :=
  ((spec_splitWhitespace s).map spec_stripCommas).filter (fun x => x != "")

/-! ## JSON.stringify -/

/-- The JavaScript values that occur in the command object. -/
inductive JsValue where
  | undefined : JsValue
  | null : JsValue
  | str : String → JsValue
  | arr : List JsValue → JsValue
  | obj : List (String × JsValue) → JsValue

/-- Lower-case hexadecimal digit of a number below sixteen. -/
def hexDigit (n : Nat) : Char :=
  if n < 10 then Char.ofNat (48 + n) else Char.ofNat (87 + n)

/-- The character U+0022. -/
def quotationMark : Char := Char.ofNat 0x22

/-- The character U+005C. -/
def reverseSolidus : Char := Char.ofNat 0x5C

/-- One step of QuoteJSONString: the short escapes, the `\u00XX` escape of the other
control characters, every other character as it is. -/
def quoteChar (c : Char) : List Char :=
  let n := c.toNat
  if n = 0x08 then [reverseSolidus, 'b']
  else if n = 0x09 then [reverseSolidus, 't']
  else if n = 0x0A then [reverseSolidus, 'n']
  else if n = 0x0C then [reverseSolidus, 'f']
  else if n = 0x0D then [reverseSolidus, 'r']
  else if n = 0x22 then [reverseSolidus, quotationMark]
  else if n = 0x5C then [reverseSolidus, reverseSolidus]
  else if n < 0x20 then
    [reverseSolidus, 'u', '0', '0', hexDigit (n / 16), hexDigit (n % 16)]
  else [c]

/-- The abstract operation QuoteJSONString of ECMAScript. -/
def QuoteJSONString (s : String) : String :=
  ⟨quotationMark :: (s.data.flatMap quoteChar ++ [quotationMark])⟩

mutual
/-- The abstract operation SerializeJSONProperty with an empty gap: `none` stands for
the result `undefined`. -/
def SerializeJSONProperty : JsValue → Option String
  | .undefined => none
  | .null => some "null"
  | .str s => some (QuoteJSONString s)
  | .arr xs => some ("[" ++ ",".intercalate (SerializeJSONArray xs) ++ "]")
  | .obj ps => some ("\x7b" ++ ",".intercalate (SerializeJSONObject ps) ++ "\x7d")
/-- The elements of an array, in index order; `undefined` is written `null`. -/
def SerializeJSONArray : List JsValue → List String
  | [] => []
  | x :: xs => (SerializeJSONProperty x).getD "null" :: SerializeJSONArray xs
/-- The members of an object, in property order; a property whose value is
`undefined` is left out. -/
def SerializeJSONObject : List (String × JsValue) → List String
  | [] => []
  | (k, v) :: ps =>
    match SerializeJSONProperty v with
    | none => SerializeJSONObject ps
    | some t => (QuoteJSONString k ++ ":" ++ t) :: SerializeJSONObject ps
end

/-- The function `JSON.stringify` of one argument. -/
def JSON_stringify (v : JsValue) : Option String :=
  SerializeJSONProperty v

/-! ## The popup -/

/-- The socket built by `new WebSocket(endpoint, "dfs")`. -/
structure WebSocket where
  url : String
  protocol : String
deriving DecidableEq

/-- The events the popup listens to on the socket. -/
inductive WsEvent where
  | onOpen : WsEvent
  | onClose : WsEvent
  | onError : WsEvent
  | onMessage : String → WsEvent
deriving DecidableEq

/-- A write to the status presentation: an assignment to `overlay_text.innerText` or a
call of `overlay.classList.add("hidden")` or `overlay.classList.remove("hidden")`. -/
inductive OverlayWrite where
  | setText : String → OverlayWrite
  | addHidden : OverlayWrite
  | removeHidden : OverlayWrite
deriving DecidableEq

/-- A call of `console.log`: the dump of the active tab, or a labelled socket event. -/
inductive LogEntry where
  | tab : LogEntry
  | ws : String → LogEntry
deriving DecidableEq

/-- The state the handlers of `popup.js` read and write. -/
structure Popup where
  /-- The local variable `is_connected` of the storage callback. -/
  is_connected : Bool
  /-- The module variable `global_ws`; `none` is `null`. -/
  global_ws : Option WebSocket
  /-- The value of `overlay_text.innerText`. -/
  overlay_text : String
  /-- Whether the class list of `overlay` contains `hidden`. -/
  overlay_hidden : Bool
  /-- Every write to the status presentation so far, oldest first. -/
  overlay_writes : List OverlayWrite
  /-- Every call of `console.log` so far, oldest first. -/
  console : List LogEntry
  /-- The payload of every call of `WebSocket.send` so far, oldest first. -/
  sent : List String
deriving DecidableEq

/-- The state once `init` has registered the handlers: `global_ws = null`,
`is_connected = false`, nothing sent. The text and visibility of the overlay come from
the page and are parameters. -/
def init (text0 : String) (hidden0 : Bool) : Popup :=
  { is_connected := false
    global_ws := none
    overlay_text := text0
    overlay_hidden := hidden0
    overlay_writes := []
    console := [LogEntry.tab]
    sent := [] }

/-- The listener registered for `close`. -/
def on_close (st : Popup) : Popup :=
  let st := { st with console := st.console ++ [LogEntry.ws "websocket-close"] }
  let st :=
    if st.is_connected then
      { st with overlay_text := "Connection lost!"
                overlay_writes := st.overlay_writes ++ [OverlayWrite.setText "Connection lost!"] }
    else
      { st with overlay_text := "Service not available!"
                overlay_writes :=
                  st.overlay_writes ++ [OverlayWrite.setText "Service not available!"] }
  let st := { st with is_connected := false }
  let st := { st with overlay_hidden := false
                      overlay_writes := st.overlay_writes ++ [OverlayWrite.removeHidden] }
  { st with global_ws := none }

/-- The listener registered for `error`. -/
def on_error (st : Popup) : Popup :=
  { st with console := st.console ++ [LogEntry.ws "websocket-error"] }

/-- The listener registered for `message`. -/
def on_message (st : Popup) (_msg : String) : Popup :=
  { st with console := st.console ++ [LogEntry.ws "websocket-message"] }

/-- The listener registered for `open`; `ws` is the socket it closes over. -/
def on_open (ws : WebSocket) (st : Popup) : Popup :=
  let st := { st with console := st.console ++ [LogEntry.ws "websocket-open"] }
  let st := { st with overlay_hidden := true
                      overlay_writes := st.overlay_writes ++ [OverlayWrite.addHidden] }
  let st := { st with overlay_text := "Connected!"
                      overlay_writes := st.overlay_writes ++ [OverlayWrite.setText "Connected!"] }
  let st := { st with is_connected := true }
  { st with global_ws := some ws }

/-- Delivery of one socket event to the listener registered for it. -/
def handle (ws : WebSocket) (st : Popup) : WsEvent → Popup
  | .onOpen => on_open ws st
  | .onClose => on_close st
  | .onError => on_error st
  | .onMessage m => on_message st m

/-- Delivery of a sequence of socket events, one at a time, oldest first. -/
def run (ws : WebSocket) (st : Popup) (evs : List WsEvent) : Popup :=
  evs.foldl (handle ws) st

/-- The send gate of the click handler: `global_ws != null`. -/
def canSend (st : Popup) : Bool :=
  st.global_ws.isSome

/-- The object literal passed to `JSON.stringify` in the click handler. -/
def storeCommand (url title : String) (tagList : List String) : JsValue :=
  .obj [("cmd", .str "store"), ("url", .str url), ("title", .str title),
        ("tags", .arr (tagList.map .str))]

/-- The method `WebSocket.send`: the argument is converted to a string (`undefined`
becomes the text `undefined`) and queued. -/
def send (st : Popup) (data : Option String) : Popup :=
  { st with sent := st.sent ++ [data.getD "undefined"] }

/-- The click listener of the save button. `tag_src` is `input_taglist.value`, `url` is
`tab.url`, `title` is `input_title.value`. The first component is the value the
listener settles with: it has no `return`, so that is `undefined` on both branches. -/
def saveButton_click (tag_src url title : String) (st : Popup) : JsValue × Popup :=
  match st.global_ws with
  | some _ => (.undefined, send st (JSON_stringify (storeCommand url title (tags tag_src))))
  | none => (.undefined, st)

/-! ## Event sequences, as the specification words them -/

/-- The most recent event of a sequence among those satisfying `p`. -/
def mostRecent (p : WsEvent → Bool) (evs : List WsEvent) : Option WsEvent :=
  (evs.filter p).getLast?

/-- An event is terminal-relevant when it is an open, a close or an error. -/
def isTerminalRelevant : WsEvent → Bool
  | .onOpen => true
  | .onClose => true
  | .onError => true
  | .onMessage _ => false

/-- An event is an open or a close. -/
def isOpenOrClose : WsEvent → Bool
  | .onOpen => true
  | .onClose => true
  | _ => false

/-- An event is an error or a message: the listeners of these only log. -/
def isLogOnly : WsEvent → Bool
  | .onError => true
  | .onMessage _ => true
  | _ => false

/-- The status of the connection as the popup shows and uses it. -/
def status (st : Popup) : Bool × Option WebSocket × String × Bool :=
  (st.is_connected, st.global_ws, st.overlay_text, st.overlay_hidden)

/-- The relation the handlers keep between the variables: `is_connected` holds exactly
when `global_ws` is set, and then `global_ws` is the socket and the overlay shows the
connected presentation. -/
def Linked (ws : WebSocket) (st : Popup) : Prop :=
  st.is_connected = st.global_ws.isSome ∧
  (st.is_connected = true →
    st.global_ws = some ws ∧ st.overlay_hidden = true ∧ st.overlay_text = "Connected!")

/-- A socket used in the concrete examples. -/
def demo_ws : WebSocket := ⟨"ws://localhost:8080/", "dfs"⟩

/-- The popup of the concrete examples before any socket event. -/
def demo_init : Popup := init "" false

/-! ## Lemmas -/

/-- Delivering no event changes nothing. -/
theorem run_nil (ws : WebSocket) (st : Popup) : run ws st [] = st := rfl

/-- Delivering a sequence handles its first event and then the rest. -/
theorem run_cons (ws : WebSocket) (st : Popup) (e : WsEvent) (evs : List WsEvent) :
    run ws st (e :: evs) = run ws (handle ws st e) evs := rfl

/-- Delivering a concatenation delivers the two parts in turn. -/
theorem run_append (ws : WebSocket) (st : Popup) (xs ys : List WsEvent) :
    run ws st (xs ++ ys) = run ws (run ws st xs) ys := by
  simp [run, List.foldl_append]

/-- The variables are linked before any event. -/
theorem linked_init (ws : WebSocket) (text0 : String) (hidden0 : Bool) :
    Linked ws (init text0 hidden0) := by
  simp [Linked, init]

/-- Every listener keeps the variables linked. -/
theorem linked_handle (ws : WebSocket) (st : Popup) (e : WsEvent) (h : Linked ws st) :
    Linked ws (handle ws st e) := by
  cases e <;> simp_all [Linked, handle, on_open, on_close, on_error, on_message]

/-- The variables stay linked along every sequence of events. -/
theorem linked_run (ws : WebSocket) (evs : List WsEvent) :
    ∀ st : Popup, Linked ws st → Linked ws (run ws st evs) := by
  induction evs with
  | nil => intro st h; exact h
  | cons e evs ih => intro st h; exact ih _ (linked_handle ws st e h)

/-- The error and message listeners do not touch the status. -/
theorem status_handle_logOnly (ws : WebSocket) (st : Popup) (e : WsEvent)
    (h : isLogOnly e = true) : status (handle ws st e) = status st := by
  cases e <;> simp_all [isLogOnly, status, handle, on_error, on_message]

/-- A sequence of errors and messages does not touch the status. -/
theorem status_run_logOnly (ws : WebSocket) (evs : List WsEvent) :
    ∀ st : Popup, (∀ e ∈ evs, isLogOnly e = true) → status (run ws st evs) = status st := by
  induction evs with
  | nil => intro st _; rfl
  | cons e evs ih =>
    intro st h
    rw [run_cons, ih _ (fun x hx => h x (List.mem_cons_of_mem _ hx))]
    exact status_handle_logOnly ws st e (h e (List.mem_cons_self _ _))

/-- Without an open, a connection that is not Connected stays so. -/
theorem closed_run_noOpen (ws : WebSocket) (evs : List WsEvent) :
    ∀ st : Popup, st.is_connected = false → st.global_ws = none →
      (∀ e ∈ evs, e ≠ WsEvent.onOpen) →
      (run ws st evs).is_connected = false ∧ (run ws st evs).global_ws = none := by
  induction evs with
  | nil => intro st h1 h2 _; exact ⟨h1, h2⟩
  | cons e evs ih =>
    intro st h1 h2 h
    rw [run_cons]
    have he : e ≠ WsEvent.onOpen := h e (List.mem_cons_self _ _)
    apply ih _ _ _ (fun x hx => h x (List.mem_cons_of_mem _ hx))
    · cases e <;> simp_all [handle, on_close, on_error, on_message]
    · cases e <;> simp_all [handle, on_close, on_error, on_message]

/-- The send gate after a sequence is decided by the most recent open or close, and is
the gate of the starting state when there is none. -/
theorem canSend_run_mostRecent (ws : WebSocket) (evs : List WsEvent) (st : Popup) :
    canSend (run ws st evs) =
      match mostRecent isOpenOrClose evs with
      | some WsEvent.onOpen => true
      | some _ => false
      | none => canSend st := by
  induction evs using List.reverseRecOn with
  | nil => rfl
  | append_singleton evs e ih =>
    rw [run_append]
    cases e <;>
      simp_all [mostRecent, isOpenOrClose, run, handle, on_open, on_close, on_error, on_message,
        canSend, List.filter_append]

/-- The elements of an array of strings serialize to their quoted forms. -/
theorem serializeArray_strs (xs : List String) :
    SerializeJSONArray (xs.map JsValue.str) = xs.map QuoteJSONString := by
  induction xs with
  | nil => rfl
  | cons x xs ih => simp [SerializeJSONArray, SerializeJSONProperty, ih]

/-- The JSON text of the command object, written out. -/
theorem stringify_storeCommand (url title : String) (tagList : List String) :
    JSON_stringify (storeCommand url title tagList) =
      some ("\x7b\"cmd\":\"store\",\"url\":" ++ QuoteJSONString url ++ ",\"title\":" ++
        QuoteJSONString title ++ ",\"tags\":[" ++
        ",".intercalate (tagList.map QuoteJSONString) ++ "]\x7d") := by
  simp only [JSON_stringify, storeCommand, SerializeJSONProperty, SerializeJSONObject,
    serializeArray_strs]
  generalize QuoteJSONString url = x
  generalize QuoteJSONString title = y
  generalize ",".intercalate (tagList.map QuoteJSONString) = z
  congr 1
  apply String.ext
  simp [String.intercalate, String.intercalate.go, String.data_append]
  rfl

/-- A click while `global_ws` is set settles with `undefined` and changes nothing but the
list of sent payloads, which gains the JSON text of the command object. -/
theorem click_connected_frame (tag_src url title : String) (st : Popup)
    (h : st.global_ws ≠ none) :
    saveButton_click tag_src url title st =
      (JsValue.undefined,
       { st with sent := st.sent ++
          ["\x7b\"cmd\":\"store\",\"url\":" ++ QuoteJSONString url ++ ",\"title\":" ++
           QuoteJSONString title ++ ",\"tags\":[" ++
           ",".intercalate ((tags tag_src).map QuoteJSONString) ++ "]\x7d"] }) := by
  cases hg : st.global_ws with
  | none => exact absurd hg h
  | some w => simp [saveButton_click, hg, send, stringify_storeCommand]

/-! ## Tag parsing -/

/-- C1, evaluated on the code: for the raw tag string `work, urgent  todo,` the click
handler computes the tags `work,`, `urgent`, `todo,` with the commas still attached,
whereas the reference list of the specification is `work`, `urgent`, `todo`. -/
theorem tags_keep_commas :
    tags "work, urgent  todo," = ["work,", "urgent", "todo,"] ∧
    spec_tags "work, urgent  todo," = ["work", "urgent", "todo"] ∧
    tags "work, urgent  todo," ≠ spec_tags "work, urgent  todo," := by
  decide

/-! ## The send gate -/

/-- C2: after any sequence of socket events delivered to the handlers registered by
`init`, if `is_connected` is false then the click handler calls `send` zero times: the
list of sent payloads is what it was, whatever the tag string, url and title. -/
theorem click_sends_nothing_when_not_connected (ws : WebSocket) (text0 : String)
    (hidden0 : Bool) (evs : List WsEvent) (tag_src url title : String)
    (h : (run ws (init text0 hidden0) evs).is_connected = false) :
    (saveButton_click tag_src url title (run ws (init text0 hidden0) evs)).2.sent =
      (run ws (init text0 hidden0) evs).sent := by
  have hl := (linked_run ws evs _ (linked_init ws text0 hidden0)).1
  rw [h] at hl
  have hn : (run ws (init text0 hidden0) evs).global_ws = none := by
    cases hg : (run ws (init text0 hidden0) evs).global_ws with
    | none => rfl
    | some w => rw [hg] at hl; simp at hl
  simp [saveButton_click, hn]

/-- Witness of C2 on the sequence open, message, close. -/
theorem click_sends_nothing_when_not_connected_witness :
    (run demo_ws (init "" false)
        [WsEvent.onOpen, WsEvent.onMessage "hi", WsEvent.onClose]).is_connected = false ∧
    (saveButton_click "a b" "http://x" "X" (run demo_ws (init "" false)
        [WsEvent.onOpen, WsEvent.onMessage "hi", WsEvent.onClose])).2.sent =
      (run demo_ws (init "" false)
        [WsEvent.onOpen, WsEvent.onMessage "hi", WsEvent.onClose]).sent :=
  ⟨by decide, click_sends_nothing_when_not_connected demo_ws "" false
    [WsEvent.onOpen, WsEvent.onMessage "hi", WsEvent.onClose] "a b" "http://x" "X" (by decide)⟩

/-- C3 as stated fails: before any open (`global_ws` is null) the click handler sends
nothing, after an open it sends one payload, and the value it settles with is the same
`undefined` in both cases, so the result does not tell not sent from sent. -/
theorem click_result_same_sent_or_not :
    demo_init.global_ws = none ∧
    (run demo_ws demo_init [WsEvent.onOpen]).global_ws = some demo_ws ∧
    (saveButton_click "a" "http://x" "X" demo_init).2.sent.length = 0 ∧
    (saveButton_click "a" "http://x" "X"
      (run demo_ws demo_init [WsEvent.onOpen])).2.sent.length = 1 ∧
    (saveButton_click "a" "http://x" "X" demo_init).1 = JsValue.undefined ∧
    (saveButton_click "a" "http://x" "X" demo_init).1 =
      (saveButton_click "a" "http://x" "X" (run demo_ws demo_init [WsEvent.onOpen])).1 :=
  ⟨by decide, by decide, by decide, by decide, rfl, rfl⟩

/-- C3 amended: when the click handler runs while `global_ws` is null it leaves the
state as it is (no send, no other effect) and settles with `undefined`. That is also the
value it settles with in every other state; and in a state where `global_ws` is set the
click changes nothing but the list of sent payloads, which gains one payload, so not
sent differs from sent in the send alone and not in the result. -/
theorem click_not_connected_undefined (tag_src url title : String) (st : Popup)
    (h : st.global_ws = none) :
    saveButton_click tag_src url title st = (JsValue.undefined, st) ∧
    ∀ st2 : Popup,
      (saveButton_click tag_src url title st2).1 =
        (saveButton_click tag_src url title st).1 ∧
      (st2.global_ws ≠ none →
        (saveButton_click tag_src url title st2).2 =
          { st2 with sent := st2.sent ++
            ["\x7b\"cmd\":\"store\",\"url\":" ++ QuoteJSONString url ++ ",\"title\":" ++
             QuoteJSONString title ++ ",\"tags\":[" ++
             ",".intercalate ((tags tag_src).map QuoteJSONString) ++ "]\x7d"] }) := by
  have h0 : saveButton_click tag_src url title st = (JsValue.undefined, st) := by
    simp [saveButton_click, h]
  refine ⟨h0, fun st2 => ⟨?_, fun h2 => ?_⟩⟩
  · rw [h0]
    cases hg : st2.global_ws with
    | none => simp [saveButton_click, hg]
    | some w => simp [saveButton_click, hg]
  · rw [click_connected_frame tag_src url title st2 h2]

/-- Witness of the amended C3 on the popup before any socket event. -/
theorem click_not_connected_undefined_witness :
    demo_init.global_ws = none ∧
    (saveButton_click "a" "http://x" "X" demo_init = (JsValue.undefined, demo_init) ∧
     ∀ st2 : Popup,
      (saveButton_click "a" "http://x" "X" st2).1 =
        (saveButton_click "a" "http://x" "X" demo_init).1 ∧
      (st2.global_ws ≠ none →
        (saveButton_click "a" "http://x" "X" st2).2 =
          { st2 with sent := st2.sent ++
            ["\x7b\"cmd\":\"store\",\"url\":" ++ QuoteJSONString "http://x" ++ ",\"title\":" ++
             QuoteJSONString "X" ++ ",\"tags\":[" ++
             ",".intercalate ((tags "a").map QuoteJSONString) ++ "]\x7d"] })) :=
  ⟨by decide, click_not_connected_undefined "a" "http://x" "X" demo_init (by decide)⟩

/-- C4, evaluated on the code: while `global_ws` is the socket the click handler calls
`send` exactly once with the JSON text of the object `cmd`, `url`, `title`, `tags`. For
the empty tag string, the url `http://x` and the title `X` that is the text of the
specification, and a quotation mark, a reverse solidus and control characters in the
title are escaped and white space around a tag is trimmed; but for the tag string `work, urgent  todo,` the member `tags` carries `work,`,
`urgent`, `todo,` with the commas, and not the parsed tag list `work`, `urgent`,
`todo`. -/
theorem click_connected_sends_unparsed_tags :
    (run demo_ws demo_init [WsEvent.onOpen]).global_ws = some demo_ws ∧
    (saveButton_click "" "http://x" "X" (run demo_ws demo_init [WsEvent.onOpen])).2.sent =
      ["\x7b\"cmd\":\"store\",\"url\":\"http://x\",\"title\":\"X\",\"tags\":[]\x7d"] ∧
    (saveButton_click "a\t b" "http://x" "say \"hi\" \\o/\t\x08\x0c\n\r\x01\x1f"
        (run demo_ws demo_init [WsEvent.onOpen])).2.sent =
      ["\x7b\"cmd\":\"store\",\"url\":\"http://x\"," ++
       "\"title\":\"say \\\"hi\\\" \\\\o/\\t\\b\\f\\n\\r\\u0001\\u001f\"," ++
       "\"tags\":[\"a\",\"b\"]\x7d"] ∧
    (saveButton_click "work, urgent  todo," "http://x" "X"
        (run demo_ws demo_init [WsEvent.onOpen])).2.sent =
      ["\x7b\"cmd\":\"store\",\"url\":\"http://x\",\"title\":\"X\"," ++
       "\"tags\":[\"work,\",\"urgent\",\"todo,\"]\x7d"] ∧
    JSON_stringify (storeCommand "http://x" "X" (spec_tags "work, urgent  todo,")) =
      some ("\x7b\"cmd\":\"store\",\"url\":\"http://x\",\"title\":\"X\"," ++
       "\"tags\":[\"work\",\"urgent\",\"todo\"]\x7d") ∧
    (saveButton_click "work, urgent  todo," "http://x" "X"
        (run demo_ws demo_init [WsEvent.onOpen])).2.sent ≠
      [(JSON_stringify (storeCommand "http://x" "X"
          (spec_tags "work, urgent  todo,"))).getD "undefined"] := by
  decide

/-! ## The connection state -/

/-- C5 as stated fails: after an open followed by an error the send gate is still
open (`global_ws` is set), although the most recent event among open, close and error
is the error and not an open. -/
theorem canSend_after_open_error :
    canSend (run demo_ws demo_init [WsEvent.onOpen, WsEvent.onError]) = true ∧
    mostRecent isTerminalRelevant [WsEvent.onOpen, WsEvent.onError] = some WsEvent.onError ∧
    mostRecent isTerminalRelevant [WsEvent.onOpen, WsEvent.onError] ≠ some WsEvent.onOpen := by
  decide

/-- C5 amended: after any sequence of socket events, `global_ws != null` holds exactly
when the most recent event among open and close is an open; errors and messages do
not count. -/
theorem canSend_iff_last_open (ws : WebSocket) (text0 : String) (hidden0 : Bool)
    (evs : List WsEvent) :
    canSend (run ws (init text0 hidden0) evs) = true ↔
      mostRecent isOpenOrClose evs = some WsEvent.onOpen := by
  rw [canSend_run_mostRecent]
  cases hm : mostRecent isOpenOrClose evs with
  | none => simp [canSend, init]
  | some e => cases e <;> simp

/-- C6 as stated fails: an open delivered after a close sets `is_connected` and
`global_ws` again. -/
theorem open_after_close_reconnects :
    (run demo_ws demo_init [WsEvent.onClose]).is_connected = false ∧
    (run demo_ws demo_init [WsEvent.onClose]).global_ws = none ∧
    (run demo_ws (run demo_ws demo_init [WsEvent.onClose]) [WsEvent.onOpen]).is_connected = true ∧
    (run demo_ws (run demo_ws demo_init [WsEvent.onClose]) [WsEvent.onOpen]).global_ws =
      some demo_ws := by
  decide

/-- C6 amended: once a close has been processed, `is_connected` stays false and
`global_ws` stays null through every further sequence of close, error and message
events, that is every further sequence without an open. -/
theorem closed_stays_closed_without_open (ws : WebSocket) (st : Popup)
    (before after : List WsEvent) (h : ∀ e ∈ after, e ≠ WsEvent.onOpen) :
    (run ws (run ws st (before ++ [WsEvent.onClose])) after).is_connected = false ∧
    (run ws (run ws st (before ++ [WsEvent.onClose])) after).global_ws = none := by
  apply closed_run_noOpen ws after _ _ _ h
  · simp [run_append, run, handle, on_close]
  · simp [run_append, run, handle, on_close]

/-- Witness of the amended C6: open, close, and then error, close, message. -/
theorem closed_stays_closed_without_open_witness :
    (∀ e ∈ [WsEvent.onError, WsEvent.onClose, WsEvent.onMessage "m"], e ≠ WsEvent.onOpen) ∧
    ((run demo_ws (run demo_ws demo_init ([WsEvent.onOpen] ++ [WsEvent.onClose]))
        [WsEvent.onError, WsEvent.onClose, WsEvent.onMessage "m"]).is_connected = false ∧
     (run demo_ws (run demo_ws demo_init ([WsEvent.onOpen] ++ [WsEvent.onClose]))
        [WsEvent.onError, WsEvent.onClose, WsEvent.onMessage "m"]).global_ws = none) :=
  ⟨by decide, closed_stays_closed_without_open demo_ws demo_init [WsEvent.onOpen]
    [WsEvent.onError, WsEvent.onClose, WsEvent.onMessage "m"] (by decide)⟩

/-- C7 as stated fails on two sequences that contain an open followed later by a
close: after open, close, open the connection is Connected again, and after open,
close, close the overlay reads `Service not available!`. -/
theorem open_then_close_not_final :
    List.Sublist [WsEvent.onOpen, WsEvent.onClose]
      [WsEvent.onOpen, WsEvent.onClose, WsEvent.onOpen] ∧
    (run demo_ws demo_init [WsEvent.onOpen, WsEvent.onClose, WsEvent.onOpen]).is_connected
      = true ∧
    List.Sublist [WsEvent.onOpen, WsEvent.onClose]
      [WsEvent.onOpen, WsEvent.onClose, WsEvent.onClose] ∧
    (run demo_ws demo_init [WsEvent.onOpen, WsEvent.onClose, WsEvent.onClose]).overlay_text
      = "Service not available!" := by
  decide

/-- C7 amended: for every sequence in which an open is followed by a close with only
error and message events between the two and only error and message events after the
close, the final state has `is_connected` false, `global_ws` null, the overlay shown
and the text `Connection lost!`; this holds from any starting state, the one set up by
`init` included. -/
theorem open_then_close_connection_lost (ws : WebSocket) (st : Popup)
    (pre mid post : List WsEvent) (hmid : ∀ e ∈ mid, isLogOnly e = true)
    (hpost : ∀ e ∈ post, isLogOnly e = true) :
    status (run ws st (pre ++ [WsEvent.onOpen] ++ mid ++ [WsEvent.onClose] ++ post)) =
      (false, none, "Connection lost!", false) := by
  simp only [run_append]
  rw [status_run_logOnly ws post _ hpost]
  have hm := status_run_logOnly ws mid (run ws (run ws st pre) [WsEvent.onOpen]) hmid
  generalize run ws st pre = s0 at hm ⊢
  generalize run ws (run ws s0 [WsEvent.onOpen]) mid = s1 at hm ⊢
  have hc : s1.is_connected = true := by
    have := congrArg Prod.fst hm
    simpa [status, run, handle, on_open] using this
  simp [run, handle, on_close, status, hc]

/-- Witness of the amended C7: message, open, error, close, message. -/
theorem open_then_close_connection_lost_witness :
    (∀ e ∈ [WsEvent.onError], isLogOnly e = true) ∧
    (∀ e ∈ [WsEvent.onMessage "m"], isLogOnly e = true) ∧
    status (run demo_ws demo_init ([WsEvent.onMessage "a"] ++ [WsEvent.onOpen] ++
      [WsEvent.onError] ++ [WsEvent.onClose] ++ [WsEvent.onMessage "m"])) =
      (false, none, "Connection lost!", false) :=
  ⟨by decide, by decide, open_then_close_connection_lost demo_ws demo_init
    [WsEvent.onMessage "a"] [WsEvent.onError] [WsEvent.onMessage "m"] (by decide) (by decide)⟩

/-- C8: for every sequence of socket events that contains no open and ends with a
close, the final state has `is_connected` false, `global_ws` null, the overlay shown
and the text `Service not available!`. -/
theorem close_without_open_not_available (ws : WebSocket) (text0 : String) (hidden0 : Bool)
    (evs : List WsEvent) (hno : ∀ e ∈ evs, e ≠ WsEvent.onOpen)
    (hlast : evs.getLast? = some WsEvent.onClose) :
    (run ws (init text0 hidden0) evs).is_connected = false ∧
    (run ws (init text0 hidden0) evs).global_ws = none ∧
    (run ws (init text0 hidden0) evs).overlay_hidden = false ∧
    (run ws (init text0 hidden0) evs).overlay_text = "Service not available!" := by
  induction evs using List.reverseRecOn with
  | nil => simp at hlast
  | append_singleton xs e _ =>
    simp at hlast
    subst hlast
    have hx := closed_run_noOpen ws xs (init text0 hidden0) rfl rfl
      (fun x hx => hno x (List.mem_append_left _ hx))
    simp [run_append, run_cons, run_nil, handle, on_close, hx.1]

/-- Witness of C8 on the sequence error, close, message, close. -/
theorem close_without_open_not_available_witness :
    (∀ e ∈ [WsEvent.onError, WsEvent.onClose, WsEvent.onMessage "m", WsEvent.onClose],
      e ≠ WsEvent.onOpen) ∧
    [WsEvent.onError, WsEvent.onClose, WsEvent.onMessage "m", WsEvent.onClose].getLast? =
      some WsEvent.onClose ∧
    ((run demo_ws (init "" true)
      [WsEvent.onError, WsEvent.onClose, WsEvent.onMessage "m", WsEvent.onClose]).is_connected =
      false ∧
     (run demo_ws (init "" true)
      [WsEvent.onError, WsEvent.onClose, WsEvent.onMessage "m", WsEvent.onClose]).global_ws =
      none ∧
     (run demo_ws (init "" true)
      [WsEvent.onError, WsEvent.onClose, WsEvent.onMessage "m", WsEvent.onClose]).overlay_hidden =
      false ∧
     (run demo_ws (init "" true)
      [WsEvent.onError, WsEvent.onClose, WsEvent.onMessage "m", WsEvent.onClose]).overlay_text =
      "Service not available!") :=
  ⟨by decide, by decide, close_without_open_not_available demo_ws "" true
    [WsEvent.onError, WsEvent.onClose, WsEvent.onMessage "m", WsEvent.onClose]
    (by decide) (by decide)⟩

/-- C9: in every state, reachable or not, the error listener leaves `is_connected`,
`global_ws` (hence the send gate) and the text and visibility of the overlay as they
were; it writes nothing to the overlay and sends nothing, it only logs. -/
theorem error_keeps_status (ws : WebSocket) (st : Popup) :
    (handle ws st WsEvent.onError).is_connected = st.is_connected ∧
    (handle ws st WsEvent.onError).global_ws = st.global_ws ∧
    canSend (handle ws st WsEvent.onError) = canSend st ∧
    (handle ws st WsEvent.onError).overlay_text = st.overlay_text ∧
    (handle ws st WsEvent.onError).overlay_hidden = st.overlay_hidden ∧
    (handle ws st WsEvent.onError).overlay_writes = st.overlay_writes ∧
    (handle ws st WsEvent.onError).sent = st.sent ∧
    (handle ws st WsEvent.onError).console = st.console ++ [LogEntry.ws "websocket-error"] := by
  simp [handle, on_error, canSend]

/-- C10 as stated fails: in the Connected state reached by one open, a further open is
not a no-op; the listener hides the overlay and sets its text a second time. -/
theorem open_again_updates_presentation :
    (run demo_ws demo_init [WsEvent.onOpen]).is_connected = true ∧
    (run demo_ws demo_init [WsEvent.onOpen]).overlay_writes =
      [OverlayWrite.addHidden, OverlayWrite.setText "Connected!"] ∧
    (handle demo_ws (run demo_ws demo_init [WsEvent.onOpen]) WsEvent.onOpen).overlay_writes =
      [OverlayWrite.addHidden, OverlayWrite.setText "Connected!",
       OverlayWrite.addHidden, OverlayWrite.setText "Connected!"] ∧
    handle demo_ws (run demo_ws demo_init [WsEvent.onOpen]) WsEvent.onOpen ≠
      run demo_ws demo_init [WsEvent.onOpen] := by
  decide

/-- C10 amended: in every reachable state in which the connection is Connected, a
further open leaves `is_connected`, `global_ws` and the text and visibility of the
overlay as they were and sends nothing; the listener is not guarded, so it is not a
no-op: it applies the presentation update again and logs `websocket-open` again. -/
theorem open_again_keeps_status (ws : WebSocket) (text0 : String) (hidden0 : Bool)
    (evs : List WsEvent) (h : (run ws (init text0 hidden0) evs).is_connected = true) :
    status (handle ws (run ws (init text0 hidden0) evs) WsEvent.onOpen) =
      status (run ws (init text0 hidden0) evs) ∧
    (handle ws (run ws (init text0 hidden0) evs) WsEvent.onOpen).sent =
      (run ws (init text0 hidden0) evs).sent ∧
    (handle ws (run ws (init text0 hidden0) evs) WsEvent.onOpen).overlay_writes =
      (run ws (init text0 hidden0) evs).overlay_writes ++
        [OverlayWrite.addHidden, OverlayWrite.setText "Connected!"] ∧
    (handle ws (run ws (init text0 hidden0) evs) WsEvent.onOpen).console =
      (run ws (init text0 hidden0) evs).console ++ [LogEntry.ws "websocket-open"] := by
  obtain ⟨hg, hh, ht⟩ := (linked_run ws evs _ (linked_init ws text0 hidden0)).2 h
  simp [status, handle, on_open, h, hg, hh, ht]

/-- Witness of the amended C10 on the state reached by close, open, error. -/
theorem open_again_keeps_status_witness :
    (run demo_ws (init "" false)
      [WsEvent.onClose, WsEvent.onOpen, WsEvent.onError]).is_connected = true ∧
    (status (handle demo_ws (run demo_ws (init "" false)
      [WsEvent.onClose, WsEvent.onOpen, WsEvent.onError]) WsEvent.onOpen) =
      status (run demo_ws (init "" false) [WsEvent.onClose, WsEvent.onOpen, WsEvent.onError]) ∧
     (handle demo_ws (run demo_ws (init "" false)
      [WsEvent.onClose, WsEvent.onOpen, WsEvent.onError]) WsEvent.onOpen).sent =
      (run demo_ws (init "" false) [WsEvent.onClose, WsEvent.onOpen, WsEvent.onError]).sent ∧
     (handle demo_ws (run demo_ws (init "" false)
      [WsEvent.onClose, WsEvent.onOpen, WsEvent.onError]) WsEvent.onOpen).overlay_writes =
      (run demo_ws (init "" false)
        [WsEvent.onClose, WsEvent.onOpen, WsEvent.onError]).overlay_writes ++
        [OverlayWrite.addHidden, OverlayWrite.setText "Connected!"] ∧
     (handle demo_ws (run demo_ws (init "" false)
      [WsEvent.onClose, WsEvent.onOpen, WsEvent.onError]) WsEvent.onOpen).console =
      (run demo_ws (init "" false)
        [WsEvent.onClose, WsEvent.onOpen, WsEvent.onError]).console ++
        [LogEntry.ws "websocket-open"]) :=
  ⟨by decide, open_again_keeps_status demo_ws "" false
    [WsEvent.onClose, WsEvent.onOpen, WsEvent.onError] (by decide)⟩

end DfsChrome
